import Mathlib

/-!
Verification development for the opendps `dpsctl.py` protocol client.

The definitions below are a shallow embedding of `src/dpsctl/dpsctl.py`:
the command/response engine (`handle_response`, `communicate`), the serial
transport framing loop (`tty_interface.read`), the firmware upgrade session
(`chunk_from_file`, `run_upgrade`) and the discovery listener step
(`uhej_worker_thread`).  Bytes are modelled as `Nat` (values 0..255), byte
streams and frames as `List Nat`, and the effect of each routine as an
explicit trace/result value.  Process-terminating `fail(...)` calls are
modelled as distinguished outcome constructors.
-/

/-- Modelled from the spec: `protocol.py` is not under `src/`.  A response
repeats the command identifier with a fixed high bit set (section 6 of the
spec); the flag bit is modelled as 128. -/
def cmd_response : Nat := 128

/-- Modelled from the spec: `protocol.py` is not under `src/`.  Command
identifiers are distinct small integers (below the response flag bit); the
exact values are interface constants and no claim depends on them. -/
def cmd_ping : Nat := 1

/-- Modelled from the spec: distinct small command identifier, see `cmd_ping`. -/
def cmd_query : Nat := 3

/-- Modelled from the spec: distinct small command identifier, see `cmd_ping`. -/
def cmd_upgrade_start : Nat := 4

/-- Modelled from the spec: distinct small command identifier, see `cmd_ping`. -/
def cmd_upgrade_data : Nat := 5

/-- Modelled from the spec: `protocol.py` is not under `src/`.  The upgrade
status codes form a closed small enumeration (continue, CRC error, erase
error, flash error, overflow error, success); they are modelled as the
distinct naturals 0..5. -/
def upgrade_continue : Nat := 0

/-- Modelled from the spec: upgrade status code, see `upgrade_continue`. -/
def upgrade_crc_error : Nat := 1

/-- Modelled from the spec: upgrade status code, see `upgrade_continue`. -/
def upgrade_erase_error : Nat := 2

/-- Modelled from the spec: upgrade status code, see `upgrade_continue`. -/
def upgrade_flash_error : Nat := 3

/-- Modelled from the spec: upgrade status code, see `upgrade_continue`. -/
def upgrade_overflow_error : Nat := 4

/-- Modelled from the spec: upgrade status code, see `upgrade_continue`. -/
def upgrade_success : Nat := 5

/-- Modelled from the spec: `uframe.py` is not under `src/`.  The frame start
marker byte (`uframe._SOF`); only its value as a distinguished byte matters. -/
def _SOF : Nat := 126

/-- Modelled from the spec: `uframe.py` is not under `src/`.  The frame end
marker byte (`uframe._EOF`). -/
def _EOF : Nat := 127

/-- Result of `handle_response` (dpsctl.py lines 212-349).  `warned` records
whether the command-mismatch warning on line 219 printed; `fatal` records
whether the fail call on line 221 ("command failed according to device")
terminated the process; `dispatchCmd` is the command identifier the
if/elif dispatch chain ran on (`none` when the fatal exit preempted it);
`status` and `chunkSize` are the `ret_dict` fields filled in by the
`cmd_upgrade_start` / `cmd_upgrade_data` arms. -/
structure HandleResult where
  warned : Bool
  fatal : Bool
  dispatchCmd : Option Nat
  status : Option Nat
  chunkSize : Option Nat
deriving DecidableEq, Repr

/-- The dispatch chain of `handle_response` (dpsctl.py lines 228-344), keyed on
the (flag-cleared) response command byte.  The upgrade arms (lines 253-263)
unpack the echoed command byte, then the status byte, and for
`cmd_upgrade_start` a 16-bit chunk size, into `ret_dict`; the remaining arms
only print or decode fields that live in `protocol.py` (outside `src/`) and no
claim inspects, so the embedding records just the dispatch target for them.
The 16-bit field is read in a fixed byte order (modelled from the spec as
big-endian; `uframe.py` is not under `src/`). -/
def handle_dispatch (respCommand : Nat) (frame : List Nat) (warned : Bool) : HandleResult :=
  if respCommand = cmd_upgrade_start then
    { warned := warned, fatal := false, dispatchCmd := some respCommand,
      status := some (frame.getD 1 0),
      chunkSize := some (256 * frame.getD 2 0 + frame.getD 3 0) }
  else if respCommand = cmd_upgrade_data then
    { warned := warned, fatal := false, dispatchCmd := some respCommand,
      status := some (frame.getD 1 0), chunkSize := none }
  else
    { warned := warned, fatal := false, dispatchCmd := some respCommand,
      status := none, chunkSize := none }

/-- Embeds `handle_response` (dpsctl.py lines 212-349).  `frame` is the
unframed response payload (what `frame.get_frame()` yields after
`set_frame`); `command` is the command byte that was sent.  When the first
byte carries the response flag, the flag is cleared, the second byte is read
as the success flag, a mismatch against the sent command prints a warning
(line 219), and a zero success flag for any command other than the two
upgrade commands calls `fail` and terminates (line 221, modelled as
`fatal := true` with no dispatch).  Without the response flag the raw first
byte goes straight to the dispatch chain. -/
def handle_response (command : Nat) (frame : List Nat) : HandleResult :=
  let b0 := frame.getD 0 0
  if Nat.land b0 128 ≠ 0 then
    let respCommand := Nat.xor b0 128
    let success := frame.getD 1 0
    let warned := decide (respCommand ≠ command)
    if respCommand ≠ cmd_upgrade_start ∧ respCommand ≠ cmd_upgrade_data ∧ success = 0 then
      { warned := warned, fatal := true, dispatchCmd := none,
        status := none, chunkSize := none }
    else
      handle_dispatch respCommand frame warned
  else
    handle_dispatch b0 frame false

/-- Modelled from the spec: `uframe.py` is not under `src/`.  `set_frame`
decodes raw received bytes; a frame delimited by the start and end markers
yields its unframed payload, anything else is a protocol error (negative
result in the source, `none` here). -/
def set_frame (raw : List Nat) : Option (List Nat) :=
  if 2 ≤ raw.length ∧ raw.getD 0 0 = _SOF ∧ raw.getLast? = some _EOF then
    some ((raw.drop 1).dropLast)
  else
    none

/-- One transport operation performed by `communicate`. -/
inductive TAction
  | openA
  | writeA
  | readA
  | closeA
deriving DecidableEq, Repr

/-- Outcome of one `communicate` call: each `fail...` constructor is one of
the process-terminating `fail(...)` calls, `protocolError` is the
`set_frame` failure path (line 377), `handled` is the normal return of
`handle_response` (line 379). -/
inductive CommOutcome
  | failNoComms
  | failOpen
  | failWrite
  | failTimeout
  | protocolError
  | handled (r : HandleResult)
deriving DecidableEq, Repr

/-- Result of `communicate`: the sequence of transport operations attempted,
whether the "could not close" warning on line 372 printed, and the outcome. -/
structure CommResult where
  trace : List TAction
  closeWarned : Bool
  outcome : CommOutcome
deriving DecidableEq, Repr

/-- Embeds `communicate` (dpsctl.py lines 354-379).  `hasComms`, `openOk` and
`writeOk` are the truth values of `comms`, `comms.open()` and
`comms.write(bytes)`; `txFrame` is the request wire frame (its byte 1 is the
sent command passed to `handle_response` on line 379); `resp` is what
`comms.read()` returned.  Line 371 of the source reads `if not comms.close:`
without parentheses: it tests the bound method object, which is always truthy
in Python, so `close()` is never invoked and the warning branch never runs.
The embedding therefore records no close action and `closeWarned := false` on
every path, faithfully to the source. -/
def communicate (hasComms openOk writeOk : Bool) (txFrame : List Nat) (resp : List Nat) : CommResult :=
  if hasComms = false then
    { trace := [], closeWarned := false, outcome := CommOutcome.failNoComms }
  else if openOk = false then
    { trace := [TAction.openA], closeWarned := false, outcome := CommOutcome.failOpen }
  else if writeOk = false then
    { trace := [TAction.openA, TAction.writeA], closeWarned := false,
      outcome := CommOutcome.failWrite }
  else if resp.length = 0 then
    { trace := [TAction.openA, TAction.writeA, TAction.readA], closeWarned := false,
      outcome := CommOutcome.failTimeout }
  else
    match set_frame resp with
    | none =>
      { trace := [TAction.openA, TAction.writeA, TAction.readA], closeWarned := false,
        outcome := CommOutcome.protocolError }
    | some payload =>
      { trace := [TAction.openA, TAction.writeA, TAction.readA], closeWarned := false,
        outcome := CommOutcome.handled (handle_response (txFrame.getD 1 0) payload) }

/-- The while loop of `tty_interface.read` (dpsctl.py lines 115-130).  The
first argument is the byte stream the serial port delivers before timing out
(`self._port_handle.read(1)` yields its elements in order; the end of the
list is the timeout, line 120); `acc` is the `bytes` accumulator and `sof`
the start-of-frame flag. -/
def tty_read_go : List Nat → List Nat → Bool → List Nat
  | [], acc, _ => acc
  | b :: rest, acc, sof =>
    let acc2 := if b = _SOF then [] else acc
    let sof2 := if b = _SOF then true else sof
    let acc3 := if sof2 then acc2 ++ [b] else acc2
    if b = _EOF then acc3 else tty_read_go rest acc3 sof2

/-- Embeds `tty_interface.read` (dpsctl.py lines 115-130). -/
def tty_read (stream : List Nat) : List Nat :=
  tty_read_go stream [] false

/-- One lowercase hex digit, as produced by the Python `encode` with the hex
codec used on dpsctl.py line 488. -/
def hexDigitChar (n : Nat) : Char :=
  if n < 10 then Char.ofNat (48 + n) else Char.ofNat (87 + n)

/-- Lowercase hex encoding of a byte string, two digits per byte
(`content.encode` with the hex codec, dpsctl.py line 488). -/
def hexEncode (bs : List Nat) : List Char :=
  bs.flatMap (fun b => [hexDigitChar (b / 16), hexDigitChar (b % 16)])

/-- The slice `content.encode(hex)[6:8]` of dpsctl.py line 488: hex digits 6
and 7, i.e. the two digits of the byte at offset 3 of the firmware image.
The guard aborts when this slice differs from the string of the two
characters 2 and 0 (the marker byte 0x20). -/
def fwMarkerSlice (content : List Nat) : List Char :=
  ((hexEncode content).drop 6).take 2

/-- Recursion core of `chunk_from_file`.  The `fuel` argument only bounds the
recursion structurally so the definition computes by reduction; each step
consumes at least one byte of the remaining content whenever `chunkSize` is
nonzero, so with `fuel = content.length` the bound is never reached and the
behavior is exactly that of the Python generator. -/
def chunk_read_go (fuel : Nat) (content : List Nat) (chunkSize : Nat) : List (List Nat) :=
  match fuel with
  | 0 => []
  | fuel + 1 =>
    if chunkSize = 0 ∨ content = [] then []
    else content.take chunkSize :: chunk_read_go fuel (content.drop chunkSize) chunkSize

/-- Embeds `chunk_from_file` (dpsctl.py lines 472-479): the file content is
read in successive slices of `chunkSize` bytes, the last slice possibly
shorter, stopping at end of file.  A zero `chunkSize` yields no chunks, as
the Python `f.read(0)` returns the empty bytes object and the generator
stops immediately. -/
def chunk_from_file (content : List Nat) (chunkSize : Nat) : List (List Nat) :=
  chunk_read_go content.length content chunkSize

/-- Final state of one `run_upgrade` session.  `guardFailed` is the fail call
on line 489 (firmware marker mismatch), `rejected` the fail on line 525
(upgrade-start status other than continue), the four named failures and
`unknownFailed` are the per-status fail calls on lines 507-523, and
`succeeded` is the normal `sys.exit(os.EX_OK)` on line 526. -/
inductive UOutcome
  | guardFailed
  | rejected
  | crcFailed
  | eraseFailed
  | flashFailed
  | overflowFailed
  | unknownFailed (status : Nat)
  | succeeded
deriving DecidableEq, Repr

/-- Observable trace of one `run_upgrade` session: whether the upgrade-start
command was sent, the chunks sent via upgrade-data commands in order, the
final value of the `counter` variable (cumulative bytes of the chunks sent,
line 498), and the outcome. -/
structure UpgradeTrace where
  sentStart : Bool
  chunksSent : List (List Nat)
  counter : Nat
  outcome : UOutcome
deriving DecidableEq, Repr

/-- The chunk loop of `run_upgrade` (dpsctl.py lines 497-523).  `dataResp i`
is the device status answering the i-th upgrade-data command; the status
checks follow the source order: continue advances, the four named error
codes and the unknown fallback call `fail` and terminate, and a success
status only prints — the loop is NOT exited, faithful to the source, which
has no break on `upgrade_success` (line 519-520). -/
def upgrade_loop (dataResp : Nat → Nat) :
    List (List Nat) → Nat → Nat → List (List Nat) → List (List Nat) × Nat × UOutcome
  | [], _, counter, sent => (sent, counter, UOutcome.succeeded)
  | c :: rest, i, counter, sent =>
    let counter2 := counter + c.length
    let sent2 := sent ++ [c]
    let st := dataResp i
    if st = upgrade_continue then upgrade_loop dataResp rest (i + 1) counter2 sent2
    else if st = upgrade_crc_error then (sent2, counter2, UOutcome.crcFailed)
    else if st = upgrade_erase_error then (sent2, counter2, UOutcome.eraseFailed)
    else if st = upgrade_flash_error then (sent2, counter2, UOutcome.flashFailed)
    else if st = upgrade_overflow_error then (sent2, counter2, UOutcome.overflowFailed)
    else if st = upgrade_success then upgrade_loop dataResp rest (i + 1) counter2 sent2
    else (sent2, counter2, UOutcome.unknownFailed st)

/-- Embeds `run_upgrade` (dpsctl.py lines 484-526).  `content` is the
firmware file, `force` the `--force` flag; the device behavior is given by
`startStatus` and `devChunkSize` (the status and chunk size fields of the
upgrade-start response, lines 253-259) and `dataResp` (the statuses
answering successive upgrade-data commands).  The CRC sent with
upgrade-start is computed by the external PyCRC library and inspected by no
claim, so it is not modelled.  Note: the source sets `chunk_size = 1024`
(line 491) and, when the device reports a different size, only prints
"Device selected chunk size" (line 495) — the local variable is never
reassigned, so `chunk_from_file` on line 497 still runs with 1024;
`devChunkSize` is accordingly unused, faithful to the source. -/
def run_upgrade (content : List Nat) (force : Bool) (startStatus : Nat)
    (devChunkSize : Nat) (dataResp : Nat → Nat) : UpgradeTrace :=
  if fwMarkerSlice content ≠ ['2', '0'] ∧ force = false then
    { sentStart := false, chunksSent := [], counter := 0, outcome := UOutcome.guardFailed }
  else if startStatus = upgrade_continue then
    { sentStart := true,
      chunksSent := (upgrade_loop dataResp (chunk_from_file content 1024) 0 0 []).1,
      counter := (upgrade_loop dataResp (chunk_from_file content 1024) 0 0 []).2.1,
      outcome := (upgrade_loop dataResp (chunk_from_file content 1024) 0 0 []).2.2 }
  else
    { sentStart := true, chunksSent := [], counter := 0, outcome := UOutcome.rejected }

/-- The outcome the status dispatch of the chunk loop (dpsctl.py lines
507-523) selects for a status that is neither continue nor success: one of
the four named device errors or the unknown-error fallback. -/
def failOutcome (st : Nat) : UOutcome :=
  if st = upgrade_crc_error then UOutcome.crcFailed
  else if st = upgrade_erase_error then UOutcome.eraseFailed
  else if st = upgrade_flash_error then UOutcome.flashFailed
  else if st = upgrade_overflow_error then UOutcome.overflowFailed
  else UOutcome.unknownFailed st

/-- One service entry of a decoded uhej announce frame (the elements of
`f["services"]` iterated on dpsctl.py line 746). -/
structure uhejService where
  port : Nat
  type : Nat
  service_name : String
deriving DecidableEq, Repr

/-- One decoded uhej announce frame as seen by `uhej_worker_thread`: the
datagram source address and the advertised services. -/
structure uhejAnnounce where
  source : String
  services : List uhejService
deriving DecidableEq, Repr

/-- Processing of one service entry by `uhej_worker_thread` (dpsctl.py lines
747-751): the key is the (source address, service port, service type)
triple; if the key is not yet in `discovery_list` and the service name is
"opendps", the key is recorded.  The source builds the key as the string
"source:port:type"; since IPv4 source addresses contain no colon that
encoding is injective here and the key is modelled as the triple itself. -/
def uhej_service_step (source : String) (dl : List (String × Nat × Nat))
    (s : uhejService) : List (String × Nat × Nat) :=
  if (source, s.port, s.type) ∈ dl then dl
  else if s.service_name = "opendps" then dl ++ [(source, s.port, s.type)]
  else dl

/-- Processing of one announce frame by `uhej_worker_thread` (dpsctl.py lines
745-751): fold over the services advertised in the frame. -/
def uhej_frame_step (dl : List (String × Nat × Nat)) (f : uhejAnnounce) :
    List (String × Nat × Nat) :=
  f.services.foldl (uhej_service_step f.source) dl

/-- The discovery record set produced by processing a sequence of announce
frames within one scan window, starting from the empty `discovery_list`
(dpsctl.py lines 731-756 together with line 764). -/
def uhej_run (frames : List uhejAnnounce) : List (String × Nat × Nat) :=
  frames.foldl uhej_frame_step []

/-- A service entry is settled with respect to a record list when its triple
is already recorded or its name is not the target service; a settled entry
can never change the list again. -/
def uhej_settled (src : String) (s : uhejService) (dl : List (String × Nat × Nat)) : Prop :=
  (src, s.port, s.type) ∈ dl ∨ s.service_name ≠ "opendps"

theorem handle_dispatch_warned (rc : Nat) (frame : List Nat) (w : Bool) :
    (handle_dispatch rc frame w).warned = w := by
  unfold handle_dispatch
  split
  · rfl
  · split
    · rfl
    · rfl

theorem handle_dispatch_status_irrel (rc : Nat) (frame : List Nat) (w v : Bool) :
    (handle_dispatch rc frame w).status = (handle_dispatch rc frame v).status ∧
    (handle_dispatch rc frame w).chunkSize = (handle_dispatch rc frame v).chunkSize := by
  unfold handle_dispatch
  split
  · exact ⟨rfl, rfl⟩
  · split
    · exact ⟨rfl, rfl⟩
    · exact ⟨rfl, rfl⟩

theorem handle_dispatch_cmd (rc : Nat) (frame : List Nat) (w : Bool) :
    (handle_dispatch rc frame w).dispatchCmd = some rc := by
  unfold handle_dispatch
  split
  · rfl
  · split
    · rfl
    · rfl

theorem handle_dispatch_fatal (rc : Nat) (frame : List Nat) (w : Bool) :
    (handle_dispatch rc frame w).fatal = false := by
  unfold handle_dispatch
  split
  · rfl
  · split
    · rfl
    · rfl

/-- C4: for a response frame whose echoed command (after clearing the
response flag) differs from the sent command, `handle_response` sets the
warning, dispatches on the response's own command identifier whenever the
call is not aborted, and agrees on every other output with a call where the
sent command matches the echo — so the mismatch itself never aborts the
call nor changes how the frame is decoded. -/
theorem handle_response_mismatch (command : Nat) (frame : List Nat)
    (hlen : 2 ≤ frame.length)
    (hflag : Nat.land (frame.getD 0 0) 128 ≠ 0)
    (hmm : Nat.xor (frame.getD 0 0) 128 ≠ command) :
    (handle_response command frame).warned = true ∧
    ((handle_response command frame).fatal = false →
      (handle_response command frame).dispatchCmd = some (Nat.xor (frame.getD 0 0) 128)) ∧
    (handle_response command frame).fatal =
      (handle_response (Nat.xor (frame.getD 0 0) 128) frame).fatal ∧
    (handle_response command frame).dispatchCmd =
      (handle_response (Nat.xor (frame.getD 0 0) 128) frame).dispatchCmd ∧
    (handle_response command frame).status =
      (handle_response (Nat.xor (frame.getD 0 0) 128) frame).status ∧
    (handle_response command frame).chunkSize =
      (handle_response (Nat.xor (frame.getD 0 0) 128) frame).chunkSize := by
  unfold handle_response
  rw [if_pos hflag, if_pos hflag]
  by_cases hf : Nat.xor (frame.getD 0 0) 128 ≠ cmd_upgrade_start ∧
      Nat.xor (frame.getD 0 0) 128 ≠ cmd_upgrade_data ∧ frame.getD 1 0 = 0
  · rw [if_pos hf, if_pos hf]
    exact ⟨decide_eq_true hmm, fun hcon => Bool.noConfusion hcon, rfl, rfl, rfl, rfl⟩
  · rw [if_neg hf, if_neg hf]
    refine ⟨?_, fun _ => handle_dispatch_cmd _ _ _, ?_, ?_, ?_, ?_⟩
    · rw [handle_dispatch_warned]
      exact decide_eq_true hmm
    · rw [handle_dispatch_fatal, handle_dispatch_fatal]
    · rw [handle_dispatch_cmd, handle_dispatch_cmd]
    · exact (handle_dispatch_status_irrel _ _ _ _).1
    · exact (handle_dispatch_status_irrel _ _ _ _).2

theorem handle_response_mismatch_witness :
    (handle_response cmd_query [129, 1]).warned = true ∧
    ((handle_response cmd_query [129, 1]).fatal = false →
      (handle_response cmd_query [129, 1]).dispatchCmd = some (Nat.xor 129 128)) ∧
    (handle_response cmd_query [129, 1]).fatal =
      (handle_response (Nat.xor 129 128) [129, 1]).fatal ∧
    (handle_response cmd_query [129, 1]).dispatchCmd =
      (handle_response (Nat.xor 129 128) [129, 1]).dispatchCmd ∧
    (handle_response cmd_query [129, 1]).status =
      (handle_response (Nat.xor 129 128) [129, 1]).status ∧
    (handle_response cmd_query [129, 1]).chunkSize =
      (handle_response (Nat.xor 129 128) [129, 1]).chunkSize :=
  handle_response_mismatch cmd_query [129, 1] (by decide) (by decide) (by decide)

/-- C5: a response frame carrying the response flag with a zero success byte
makes `handle_response` terminate the process with the command-failed error
for every command other than the two upgrade commands; for upgrade-start and
upgrade-data a zero success byte does not trigger that fatal error. -/
theorem handle_response_success_check (command : Nat) (frame : List Nat)
    (hlen : 2 ≤ frame.length)
    (hflag : Nat.land (frame.getD 0 0) 128 ≠ 0)
    (hzero : frame.getD 1 0 = 0) :
    (Nat.xor (frame.getD 0 0) 128 ≠ cmd_upgrade_start →
      Nat.xor (frame.getD 0 0) 128 ≠ cmd_upgrade_data →
      (handle_response command frame).fatal = true) ∧
    (Nat.xor (frame.getD 0 0) 128 = cmd_upgrade_start ∨
      Nat.xor (frame.getD 0 0) 128 = cmd_upgrade_data →
      (handle_response command frame).fatal = false) := by
  unfold handle_response
  rw [if_pos hflag]
  constructor
  · intro h1 h2
    rw [if_pos ⟨h1, h2, hzero⟩]
  · intro h
    have hne : ¬(Nat.xor (frame.getD 0 0) 128 ≠ cmd_upgrade_start ∧
        Nat.xor (frame.getD 0 0) 128 ≠ cmd_upgrade_data ∧ frame.getD 1 0 = 0) := by
      rcases h with h | h
      · intro hc
        exact hc.1 h
      · intro hc
        exact hc.2.1 h
    rw [if_neg hne]
    exact handle_dispatch_fatal _ _ _

theorem handle_response_success_check_witness :
    (handle_response cmd_query [131, 0]).fatal = true ∧
    (handle_response cmd_query [132, 0]).fatal = false := by
  constructor
  · exact (handle_response_success_check cmd_query [131, 0] (by decide) (by decide)
      (by decide)).1 (by decide) (by decide)
  · exact (handle_response_success_check cmd_query [132, 0] (by decide) (by decide)
      (by decide)).2 (Or.inl (by decide))

/-- C10: a received frame whose first byte does not carry the response flag
skips the success-flag check and the mismatch warning entirely and is
dispatched on its raw first byte; in particular the fatal command-failed
error can never fire for such a frame, whatever its second byte holds. -/
theorem handle_response_no_flag (command : Nat) (frame : List Nat)
    (hlen : 1 ≤ frame.length)
    (hflag : Nat.land (frame.getD 0 0) 128 = 0) :
    (handle_response command frame).warned = false ∧
    (handle_response command frame).fatal = false ∧
    (handle_response command frame).dispatchCmd = some (frame.getD 0 0) := by
  unfold handle_response
  rw [if_neg (fun hc => hc hflag)]
  exact ⟨handle_dispatch_warned _ _ _, handle_dispatch_fatal _ _ _,
    handle_dispatch_cmd _ _ _⟩

theorem handle_response_no_flag_witness :
    (handle_response cmd_query [cmd_ping, 0]).warned = false ∧
    (handle_response cmd_query [cmd_ping, 0]).fatal = false ∧
    (handle_response cmd_query [cmd_ping, 0]).dispatchCmd = some cmd_ping :=
  handle_response_no_flag cmd_query [cmd_ping, 0] (by decide) (by decide)

/-- C2 (refuting theorem): on every execution path of `communicate`, the
close transport operation is never performed and the close warning never
prints — dpsctl.py line 371 tests the bound method `comms.close` instead of
calling it, so the transport is never closed, contradicting the claim that
it is always closed after the exchange. -/
theorem communicate_never_closes (hasComms openOk writeOk : Bool)
    (txFrame resp : List Nat) :
    TAction.closeA ∉ (communicate hasComms openOk writeOk txFrame resp).trace ∧
    (communicate hasComms openOk writeOk txFrame resp).closeWarned = false := by
  unfold communicate
  repeat' split
  all_goals exact ⟨by simp, rfl⟩

theorem chunk_read_go_sum : ∀ (fuel : Nat) (content : List Nat) (k : Nat), k ≠ 0 →
    content.length ≤ fuel →
    ((chunk_read_go fuel content k).map List.length).sum = content.length := by
  intro fuel
  induction fuel with
  | zero =>
    intro content k hk hlen
    have hc : content = [] := List.length_eq_zero.mp (Nat.le_zero.mp hlen)
    subst hc
    rfl
  | succ fuel ih =>
    intro content k hk hlen
    by_cases hc : content = []
    · subst hc
      simp [chunk_read_go]
    · simp only [chunk_read_go]
      rw [if_neg (by push_neg; exact ⟨hk, hc⟩)]
      have hpos : 0 < content.length := List.length_pos.mpr hc
      rw [List.map_cons, List.sum_cons,
        ih (content.drop k) k hk (by rw [List.length_drop]; omega)]
      rw [List.length_take, List.length_drop]
      simp only [Nat.min_def]
      split <;> omega

theorem chunk_from_file_sum (content : List Nat) (k : Nat) (hk : k ≠ 0) :
    ((chunk_from_file content k).map List.length).sum = content.length :=
  chunk_read_go_sum content.length content k hk (Nat.le_refl _)

theorem chunk_read_go_succ (fuel : Nat) (content : List Nat) (k : Nat) :
    chunk_read_go (fuel + 1) content k =
      if k = 0 ∨ content = [] then []
      else content.take k :: chunk_read_go fuel (content.drop k) k := rfl

theorem chunk_read_go_nil (fuel k : Nat) : chunk_read_go fuel [] k = [] := by
  cases fuel with
  | zero => rfl
  | succ f => simp [chunk_read_go]

theorem replicate_len_ne_nil (m : Nat) (hm : m ≠ 0) : List.replicate m (0 : Nat) ≠ [] := by
  intro h
  have h2 := congrArg List.length h
  rw [List.length_replicate, List.length_nil] at h2
  exact hm h2

theorem chunk_from_file_replicate_2048 :
    chunk_from_file (List.replicate 2048 (0 : Nat)) 1024 =
      [List.replicate 1024 0, List.replicate 1024 0] := by
  have hlen1 : (List.replicate 1024 (0 : Nat)).length = 1024 := List.length_replicate _ _
  have step2 : chunk_read_go 2047 (List.replicate 1024 (0 : Nat)) 1024 =
      [List.replicate 1024 0] := by
    rw [show chunk_read_go 2047 (List.replicate 1024 (0 : Nat)) 1024 =
        chunk_read_go (2046 + 1) (List.replicate 1024 (0 : Nat)) 1024 from rfl,
      chunk_read_go_succ,
      if_neg (by push_neg; exact ⟨by omega, replicate_len_ne_nil 1024 (by omega)⟩)]
    rw [show List.take 1024 (List.replicate 1024 (0 : Nat)) = List.replicate 1024 0 from by
        rw [List.take_replicate, Nat.min_self]]
    rw [show List.drop 1024 (List.replicate 1024 (0 : Nat)) = [] from by
        rw [List.drop_replicate, Nat.sub_self, List.replicate_zero]]
    rw [chunk_read_go_nil]
  have hsplit : List.replicate 2048 (0 : Nat) = List.replicate 1024 0 ++ List.replicate 1024 0 := by
    rw [← List.replicate_add]
  have step1 : chunk_read_go 2048 (List.replicate 2048 (0 : Nat)) 1024 =
      List.replicate 1024 0 :: chunk_read_go 2047 (List.replicate 1024 (0 : Nat)) 1024 := by
    rw [show chunk_read_go 2048 (List.replicate 2048 (0 : Nat)) 1024 =
        chunk_read_go (2047 + 1) (List.replicate 2048 (0 : Nat)) 1024 from rfl,
      chunk_read_go_succ,
      if_neg (by push_neg; exact ⟨by omega, replicate_len_ne_nil 2048 (by omega)⟩)]
    rw [hsplit, List.take_left' hlen1, List.drop_left' hlen1]
  unfold chunk_from_file
  rw [List.length_replicate, step1, step2]

theorem upgrade_loop_pass (dataResp : Nat → Nat) (chunks : List (List Nat)) :
    ∀ (i counter : Nat) (sent : List (List Nat)),
    (∀ j, j < chunks.length →
      dataResp (i + j) = upgrade_continue ∨ dataResp (i + j) = upgrade_success) →
    upgrade_loop dataResp chunks i counter sent =
      (sent ++ chunks, counter + (chunks.map List.length).sum, UOutcome.succeeded) := by
  induction chunks with
  | nil =>
    intro i counter sent _
    simp [upgrade_loop]
  | cons c cs ih =>
    intro i counter sent h
    have h0 := h 0 (by simp)
    rw [Nat.add_zero] at h0
    have hrest : ∀ j, j < cs.length →
        dataResp (i + 1 + j) = upgrade_continue ∨ dataResp (i + 1 + j) = upgrade_success := by
      intro j hj
      have hh := h (j + 1) (by simp; omega)
      rwa [show i + (j + 1) = i + 1 + j from by omega] at hh
    have hstep : upgrade_loop dataResp (c :: cs) i counter sent =
        upgrade_loop dataResp cs (i + 1) (counter + c.length) (sent ++ [c]) := by
      rcases h0 with h0 | h0
      · simp [upgrade_loop, h0, upgrade_continue]
      · simp [upgrade_loop, h0, upgrade_continue, upgrade_crc_error, upgrade_erase_error,
          upgrade_flash_error, upgrade_overflow_error, upgrade_success]
    rw [hstep, ih (i + 1) (counter + c.length) (sent ++ [c]) hrest]
    simp [Nat.add_assoc]

theorem upgrade_loop_fail (dataResp : Nat → Nat) (chunks : List (List Nat)) :
    ∀ (k i counter : Nat) (sent : List (List Nat)), k < chunks.length →
    (∀ j, j < k → dataResp (i + j) = upgrade_continue) →
    dataResp (i + k) ≠ upgrade_continue → dataResp (i + k) ≠ upgrade_success →
    upgrade_loop dataResp chunks i counter sent =
      (sent ++ chunks.take (k + 1),
       counter + ((chunks.take (k + 1)).map List.length).sum,
       failOutcome (dataResp (i + k))) := by
  induction chunks with
  | nil =>
    intro k i counter sent hk
    exact absurd hk (by simp)
  | cons c cs ih =>
    intro k i counter sent hk hcont hne1 hne2
    match k with
    | 0 =>
      rw [Nat.add_zero] at hne1 hne2
      simp only [upgrade_loop, failOutcome, Nat.add_zero, List.take_succ_cons,
        List.take_zero, List.map_cons, List.map_nil, List.sum_cons, List.sum_nil]
      rw [if_neg hne1]
      split_ifs <;> simp_all [upgrade_success]
    | k' + 1 =>
      have h0 : dataResp i = upgrade_continue := by
        have hh := hcont 0 (Nat.succ_pos _)
        rwa [Nat.add_zero] at hh
      have hstep : upgrade_loop dataResp (c :: cs) i counter sent =
          upgrade_loop dataResp cs (i + 1) (counter + c.length) (sent ++ [c]) := by
        simp [upgrade_loop, h0, upgrade_continue]
      have hcont2 : ∀ j, j < k' → dataResp (i + 1 + j) = upgrade_continue := by
        intro j hj
        have hh := hcont (j + 1) (by omega)
        rwa [show i + (j + 1) = i + 1 + j from by omega] at hh
      have hshift : i + 1 + k' = i + (k' + 1) := by omega
      have hne1' : dataResp (i + 1 + k') ≠ upgrade_continue := by rwa [hshift]
      have hne2' : dataResp (i + 1 + k') ≠ upgrade_success := by rwa [hshift]
      have hk' : k' < cs.length := by
        simp only [List.length_cons] at hk
        omega
      rw [hstep, ih k' (i + 1) (counter + c.length) (sent ++ [c]) hk' hcont2 hne1' hne2',
        hshift]
      simp [Nat.add_assoc]

theorem failOutcome_ne_succeeded (st : Nat) : failOutcome st ≠ UOutcome.succeeded := by
  unfold failOutcome
  repeat' split
  all_goals simp

theorem run_upgrade_guard_passes (content : List Nat) (force : Bool)
    (h : fwMarkerSlice content = ['2', '0'] ∨ force = true) :
    ¬(fwMarkerSlice content ≠ ['2', '0'] ∧ force = false) := by
  rcases h with h | h
  · exact fun hc => hc.1 h
  · exact fun hc => by rw [h] at hc; exact Bool.noConfusion hc.2

/-- C3 amended: when upgrade-start is answered with continue and every
upgrade-data command is answered continue except the one for the FINAL
chunk, which is answered success, the session ends successfully, sends
exactly the chunks of the file once each (so nothing is sent after the
success), and the cumulative byte counter equals the file size (100%
progress).  (The source has no break on a success status: only the
exhaustion of the file stops the loop, which is why the success must answer
the final chunk for the sending to stop with it.) -/
theorem run_upgrade_success_last (content : List Nat) (force : Bool)
    (devChunkSize : Nat) (dataResp : Nat → Nat)
    (hguard : fwMarkerSlice content = ['2', '0'] ∨ force = true)
    (hpos : 0 < (chunk_from_file content 1024).length)
    (hcont : ∀ i, i + 1 < (chunk_from_file content 1024).length →
      dataResp i = upgrade_continue)
    (hsucc : dataResp ((chunk_from_file content 1024).length - 1) = upgrade_success) :
    (run_upgrade content force upgrade_continue devChunkSize dataResp).outcome =
      UOutcome.succeeded ∧
    (run_upgrade content force upgrade_continue devChunkSize dataResp).chunksSent =
      chunk_from_file content 1024 ∧
    (run_upgrade content force upgrade_continue devChunkSize dataResp).counter =
      content.length := by
  have hall : ∀ j, j < (chunk_from_file content 1024).length →
      dataResp (0 + j) = upgrade_continue ∨ dataResp (0 + j) = upgrade_success := by
    intro j hj
    rw [Nat.zero_add]
    rcases Nat.lt_or_ge (j + 1) (chunk_from_file content 1024).length with h | h
    · exact Or.inl (hcont j h)
    · have hj2 : j = (chunk_from_file content 1024).length - 1 := by omega
      rw [hj2]
      exact Or.inr hsucc
  unfold run_upgrade
  rw [if_neg (run_upgrade_guard_passes content force hguard), if_pos rfl,
    upgrade_loop_pass dataResp (chunk_from_file content 1024) 0 0 [] hall]
  refine ⟨rfl, by simp, ?_⟩
  show 0 + ((chunk_from_file content 1024).map List.length).sum = content.length
  rw [Nat.zero_add, chunk_from_file_sum content 1024 (by decide)]

theorem run_upgrade_success_last_witness :
    (run_upgrade [0, 0, 0, 32] false upgrade_continue 1024
      (fun i => if i = 0 then upgrade_success else upgrade_continue)).outcome =
      UOutcome.succeeded ∧
    (run_upgrade [0, 0, 0, 32] false upgrade_continue 1024
      (fun i => if i = 0 then upgrade_success else upgrade_continue)).chunksSent =
      chunk_from_file [0, 0, 0, 32] 1024 ∧
    (run_upgrade [0, 0, 0, 32] false upgrade_continue 1024
      (fun i => if i = 0 then upgrade_success else upgrade_continue)).counter =
      ([0, 0, 0, 32] : List Nat).length := by
  have hlen : (chunk_from_file [0, 0, 0, 32] 1024).length = 1 := by decide
  exact run_upgrade_success_last [0, 0, 0, 32] false 1024
    (fun i => if i = 0 then upgrade_success else upgrade_continue)
    (Or.inl (by decide)) (by decide)
    (fun i hi => absurd (hlen ▸ hi) (by omega)) (by decide)

/-- C3 counterexample: a firmware image of two 1024-byte chunks where the
device answers the first upgrade-data with success and the second with
continue.  The source has no break on the success status, so a second chunk
is sent after the success response and the session still ends successfully
— refuting the claim that the session "stops sending chunks upon receiving
success" whenever exactly one upgrade-data response is success. -/
theorem run_upgrade_early_success_keeps_sending :
    (run_upgrade (List.replicate 2048 0) true upgrade_continue 1024
      (fun i => if i = 0 then upgrade_success else upgrade_continue)).chunksSent.length = 2 ∧
    (run_upgrade (List.replicate 2048 0) true upgrade_continue 1024
      (fun i => if i = 0 then upgrade_success else upgrade_continue)).outcome =
      UOutcome.succeeded := by
  have hguard : ¬(fwMarkerSlice (List.replicate 2048 (0 : Nat)) ≠ ['2', '0'] ∧
      (true : Bool) = false) := fun hc => Bool.noConfusion hc.2
  have hall : ∀ j, j < (chunk_from_file (List.replicate 2048 (0 : Nat)) 1024).length →
      (fun i => if i = 0 then upgrade_success else upgrade_continue) (0 + j) =
        upgrade_continue ∨
      (fun i => if i = 0 then upgrade_success else upgrade_continue) (0 + j) =
        upgrade_success := by
    intro j _
    cases j with
    | zero => exact Or.inr (by simp)
    | succ j => exact Or.inl (by simp)
  unfold run_upgrade
  rw [if_neg hguard, if_pos rfl,
    upgrade_loop_pass _ (chunk_from_file (List.replicate 2048 (0 : Nat)) 1024) 0 0 [] hall]
  refine ⟨?_, rfl⟩
  show (([] : List (List Nat)) ++ chunk_from_file (List.replicate 2048 (0 : Nat)) 1024).length = 2
  rw [List.nil_append, chunk_from_file_replicate_2048]
  rfl

/-- C6: during firmware transfer, a failure status (any status other than
continue and success: the CRC, erase, flash and overflow errors and every
unrecognized code) answering the chunk at position k makes the session fail
with the corresponding device error immediately: exactly the chunks up to
and including the failing one are sent, and the session does not succeed. -/
theorem run_upgrade_fail_aborts (content : List Nat) (force : Bool)
    (devChunkSize : Nat) (dataResp : Nat → Nat) (k : Nat)
    (hguard : fwMarkerSlice content = ['2', '0'] ∨ force = true)
    (hk : k < (chunk_from_file content 1024).length)
    (hcont : ∀ j, j < k → dataResp j = upgrade_continue)
    (hne1 : dataResp k ≠ upgrade_continue) (hne2 : dataResp k ≠ upgrade_success) :
    (run_upgrade content force upgrade_continue devChunkSize dataResp).chunksSent =
      (chunk_from_file content 1024).take (k + 1) ∧
    (run_upgrade content force upgrade_continue devChunkSize dataResp).chunksSent.length =
      k + 1 ∧
    (run_upgrade content force upgrade_continue devChunkSize dataResp).outcome =
      failOutcome (dataResp k) ∧
    (run_upgrade content force upgrade_continue devChunkSize dataResp).outcome ≠
      UOutcome.succeeded := by
  have hcont0 : ∀ j, j < k → dataResp (0 + j) = upgrade_continue := by
    intro j hj
    rw [Nat.zero_add]
    exact hcont j hj
  have hne10 : dataResp (0 + k) ≠ upgrade_continue := by rwa [Nat.zero_add]
  have hne20 : dataResp (0 + k) ≠ upgrade_success := by rwa [Nat.zero_add]
  unfold run_upgrade
  rw [if_neg (run_upgrade_guard_passes content force hguard), if_pos rfl,
    upgrade_loop_fail dataResp (chunk_from_file content 1024) k 0 0 [] hk hcont0 hne10 hne20]
  refine ⟨by simp, ?_, ?_, ?_⟩
  · show (([] : List (List Nat)) ++ (chunk_from_file content 1024).take (k + 1)).length = k + 1
    rw [List.nil_append, List.length_take]
    omega
  · show failOutcome (dataResp (0 + k)) = failOutcome (dataResp k)
    rw [Nat.zero_add]
  · show failOutcome (dataResp (0 + k)) ≠ UOutcome.succeeded
    exact failOutcome_ne_succeeded _

theorem run_upgrade_fail_aborts_witness :
    (run_upgrade [0, 0, 0, 32] false upgrade_continue 1024
      (fun _ => upgrade_crc_error)).chunksSent =
      (chunk_from_file [0, 0, 0, 32] 1024).take 1 ∧
    (run_upgrade [0, 0, 0, 32] false upgrade_continue 1024
      (fun _ => upgrade_crc_error)).chunksSent.length = 1 ∧
    (run_upgrade [0, 0, 0, 32] false upgrade_continue 1024
      (fun _ => upgrade_crc_error)).outcome = failOutcome upgrade_crc_error ∧
    (run_upgrade [0, 0, 0, 32] false upgrade_continue 1024
      (fun _ => upgrade_crc_error)).outcome ≠ UOutcome.succeeded :=
  run_upgrade_fail_aborts [0, 0, 0, 32] false 1024 (fun _ => upgrade_crc_error) 0
    (Or.inl (by decide)) (by decide) (fun j hj => absurd hj (by omega))
    (by decide) (by decide)

/-- C1 (the code at the failing input): a 4-byte firmware image with the
valid marker, upgrade-start answered continue with the device selecting
chunk size 2 (different from the proposed 1024): the session still reads and
sends the whole file as one 1024-bounded chunk of 4 bytes — whereas reading
with the device-selected size 2 would give the two 2-byte chunks shown in
the second conjunct.  The source only prints the device chunk size and never
adopts it. -/
theorem run_upgrade_ignores_device_chunk_size :
    (run_upgrade [0, 0, 0, 32] false upgrade_continue 2
      (fun _ => upgrade_success)).chunksSent = [[0, 0, 0, 32]] ∧
    chunk_from_file [0, 0, 0, 32] 2 = [[0, 0], [0, 32]] := by decide

/-- C8: run_upgrade aborts with the guard failure — before any device
interaction, with upgrade-start never sent and no chunks sent — whenever the
hex digits 6..8 of the image (the marker byte at offset 3) differ from "20"
and force is not requested; with a matching marker or with force the session
proceeds to send upgrade-start. -/
theorem run_upgrade_guard (content : List Nat) (force : Bool)
    (startStatus devChunkSize : Nat) (dataResp : Nat → Nat) :
    (fwMarkerSlice content ≠ ['2', '0'] → force = false →
      run_upgrade content force startStatus devChunkSize dataResp =
        { sentStart := false, chunksSent := [], counter := 0,
          outcome := UOutcome.guardFailed }) ∧
    (fwMarkerSlice content = ['2', '0'] ∨ force = true →
      (run_upgrade content force startStatus devChunkSize dataResp).sentStart = true) := by
  constructor
  · intro h1 h2
    unfold run_upgrade
    rw [if_pos ⟨h1, h2⟩]
  · intro h
    unfold run_upgrade
    rw [if_neg (run_upgrade_guard_passes content force h)]
    by_cases hs : startStatus = upgrade_continue
    · rw [if_pos hs]
    · rw [if_neg hs]

theorem run_upgrade_guard_witness :
    run_upgrade [0] false 0 2 (fun _ => 0) =
      { sentStart := false, chunksSent := [], counter := 0,
        outcome := UOutcome.guardFailed } ∧
    (run_upgrade [0, 0, 0, 32] false upgrade_continue 2
      (fun _ => upgrade_success)).sentStart = true :=
  ⟨(run_upgrade_guard [0] false 0 2 (fun _ => 0)).1 (by decide) rfl,
   (run_upgrade_guard [0, 0, 0, 32] false upgrade_continue 2
      (fun _ => upgrade_success)).2 (Or.inl (by decide))⟩

theorem tty_go_skip (t : List Nat) : ∀ junk : List Nat,
    (∀ b ∈ junk, b ≠ _SOF ∧ b ≠ _EOF) →
    tty_read_go (junk ++ t) [] false = tty_read_go t [] false := by
  intro junk
  induction junk with
  | nil => intro _; rfl
  | cons b j ih =>
    intro h
    have hb := h b (by simp)
    have hj : ∀ x ∈ j, x ≠ _SOF ∧ x ≠ _EOF := fun x hx => h x (by simp [hx])
    simp only [List.cons_append]
    simp [tty_read_go, hb.1, hb.2]
    exact ih hj

theorem tty_go_sof (t : List Nat) (acc : List Nat) (sof : Bool) :
    tty_read_go (_SOF :: t) acc sof = tty_read_go t [_SOF] true := by
  simp [tty_read_go, _SOF, _EOF]

theorem tty_go_body : ∀ (body t acc : List Nat),
    (∀ b ∈ body, b ≠ _SOF ∧ b ≠ _EOF) →
    tty_read_go (body ++ t) acc true = tty_read_go t (acc ++ body) true := by
  intro body
  induction body with
  | nil => intro t acc _; simp
  | cons b bs ih =>
    intro t acc h
    have hb := h b (by simp)
    have hbs : ∀ x ∈ bs, x ≠ _SOF ∧ x ≠ _EOF := fun x hx => h x (by simp [hx])
    simp only [List.cons_append]
    simp [tty_read_go, hb.1, hb.2]
    rw [ih t (acc ++ [b]) hbs]
    simp

theorem tty_go_eof (rest acc : List Nat) :
    tty_read_go (_EOF :: rest) acc true = acc ++ [_EOF] := by
  simp [tty_read_go, _SOF, _EOF]

theorem tty_go_nosof : ∀ (s acc : List Nat), _SOF ∉ s →
    tty_read_go s acc false = acc := by
  intro s
  induction s with
  | nil => intro acc _; rfl
  | cons b rest ih =>
    intro acc h
    have hb : b ≠ _SOF := fun hc => h (by simp [hc])
    have hr : _SOF ∉ rest := fun hc => h (List.mem_cons_of_mem _ hc)
    by_cases he : b = _EOF
    · simp [tty_read_go, hb, he, _SOF, _EOF]
    · simp [tty_read_go, hb, he]
      exact ih acc hr

/-- C7 amended: `tty_interface.read` discards every byte preceding the frame
start marker, accumulates bytes once the start marker is observed, and stops
at the first end-marker byte, returning exactly one framed message when one
completes; when the stream times out before any start marker arrives the
result is empty, but a timeout after a start marker and before the end
marker returns the partial accumulation (start marker plus the bytes read so
far), not an empty result. -/
theorem tty_read_framing (junk body rest : List Nat)
    (hj : ∀ b ∈ junk, b ≠ _SOF ∧ b ≠ _EOF)
    (hb : ∀ b ∈ body, b ≠ _SOF ∧ b ≠ _EOF) :
    tty_read (junk ++ _SOF :: (body ++ _EOF :: rest)) = _SOF :: (body ++ [_EOF]) ∧
    tty_read (junk ++ _SOF :: body) = _SOF :: body ∧
    (∀ s : List Nat, _SOF ∉ s → tty_read s = []) := by
  refine ⟨?_, ?_, fun s hs => tty_go_nosof s [] hs⟩
  · unfold tty_read
    rw [tty_go_skip (_SOF :: (body ++ _EOF :: rest)) junk hj, tty_go_sof,
      tty_go_body body (_EOF :: rest) [_SOF] hb, tty_go_eof]
    simp
  · unfold tty_read
    rw [tty_go_skip (_SOF :: body) junk hj, tty_go_sof]
    have h2 := tty_go_body body [] [_SOF] hb
    rw [List.append_nil] at h2
    rw [h2]
    simp [tty_read_go]

theorem tty_read_framing_witness :
    tty_read [1, _SOF, 2, _EOF, 3] = [_SOF, 2, _EOF] ∧
    tty_read [1, _SOF, 2] = [_SOF, 2] ∧
    tty_read [1, 2] = [] := by
  have h := tty_read_framing [1] [2] [3] (by decide) (by decide)
  exact ⟨h.1, h.2.1, h.2.2 [1, 2] (by decide)⟩

/-- C7 counterexample: the serial port delivers the start marker and one data
byte and then times out, so no frame ever completes — yet the result is the
non-empty partial accumulation, refuting the claim that a timeout before a
frame completes yields an empty result. -/
theorem tty_read_timeout_not_empty :
    tty_read [_SOF, 9] = [_SOF, 9] ∧ tty_read [_SOF, 9] ≠ [] := by decide

theorem uhej_service_mem (src : String) (dl : List (String × Nat × Nat))
    (s : uhejService) (a : String × Nat × Nat) (h : a ∈ dl) :
    a ∈ uhej_service_step src dl s := by
  unfold uhej_service_step
  split
  · exact h
  · split
    · exact List.mem_append_left _ h
    · exact h

theorem uhej_fold_mem (src : String) : ∀ (l : List uhejService)
    (dl : List (String × Nat × Nat)) (a : String × Nat × Nat), a ∈ dl →
    a ∈ l.foldl (uhej_service_step src) dl := by
  intro l
  induction l with
  | nil => intro dl a h; exact h
  | cons s ss ih =>
    intro dl a h
    exact ih _ _ (uhej_service_mem src dl s a h)

theorem uhej_settled_step (src : String) (dl : List (String × Nat × Nat))
    (s : uhejService) : uhej_settled src s (uhej_service_step src dl s) := by
  unfold uhej_settled uhej_service_step
  by_cases h1 : (src, s.port, s.type) ∈ dl
  · rw [if_pos h1]
    exact Or.inl h1
  · rw [if_neg h1]
    by_cases h2 : s.service_name = "opendps"
    · rw [if_pos h2]
      exact Or.inl (by simp)
    · rw [if_neg h2]
      exact Or.inr h2

theorem uhej_settled_fold (src : String) (l : List uhejService) (s : uhejService)
    (dl : List (String × Nat × Nat)) (h : uhej_settled src s dl) :
    uhej_settled src s (l.foldl (uhej_service_step src) dl) :=
  h.imp (uhej_fold_mem src l dl _) id

theorem uhej_settled_stop (src : String) (dl : List (String × Nat × Nat))
    (s : uhejService) (h : uhej_settled src s dl) :
    uhej_service_step src dl s = dl := by
  unfold uhej_service_step
  by_cases h1 : (src, s.port, s.type) ∈ dl
  · rw [if_pos h1]
  · rw [if_neg h1]
    rcases h with h | h
    · exact absurd h h1
    · rw [if_neg h]

theorem uhej_fold_settled (src : String) : ∀ (l : List uhejService)
    (dl : List (String × Nat × Nat)), ∀ s ∈ l,
    uhej_settled src s (l.foldl (uhej_service_step src) dl) := by
  intro l
  induction l with
  | nil =>
    intro dl s hs
    exact absurd hs (List.not_mem_nil s)
  | cons a l ih =>
    intro dl s hs
    rw [List.foldl_cons]
    rcases List.mem_cons.mp hs with h | h
    · subst h
      exact uhej_settled_fold src l s _ (uhej_settled_step src dl s)
    · exact ih _ s h

theorem uhej_fold_stop (src : String) : ∀ (l : List uhejService)
    (dl : List (String × Nat × Nat)),
    (∀ s ∈ l, uhej_settled src s dl) → l.foldl (uhej_service_step src) dl = dl := by
  intro l
  induction l with
  | nil => intro dl _; rfl
  | cons a l ih =>
    intro dl h
    rw [List.foldl_cons, uhej_settled_stop src dl a (h a (by simp))]
    exact ih dl (fun s hs => h s (by simp [hs]))

theorem uhej_frame_step_idem (dl : List (String × Nat × Nat)) (f : uhejAnnounce) :
    uhej_frame_step (uhej_frame_step dl f) f = uhej_frame_step dl f := by
  unfold uhej_frame_step
  exact uhej_fold_stop f.source f.services _
    (fun s hs => uhej_fold_settled f.source f.services dl s hs)

theorem uhej_service_nodup (src : String) (dl : List (String × Nat × Nat))
    (s : uhejService) (h : dl.Nodup) : (uhej_service_step src dl s).Nodup := by
  unfold uhej_service_step
  by_cases h1 : (src, s.port, s.type) ∈ dl
  · rw [if_pos h1]
    exact h
  · rw [if_neg h1]
    by_cases h2 : s.service_name = "opendps"
    · rw [if_pos h2]
      rw [List.nodup_append]
      exact ⟨h, List.nodup_singleton _,
        fun a ha hb => h1 (by rwa [List.mem_singleton.mp hb] at ha)⟩
    · rw [if_neg h2]
      exact h

theorem uhej_fold_nodup (src : String) : ∀ (l : List uhejService)
    (dl : List (String × Nat × Nat)), dl.Nodup →
    (l.foldl (uhej_service_step src) dl).Nodup := by
  intro l
  induction l with
  | nil => intro dl h; exact h
  | cons s ss ih =>
    intro dl h
    exact ih _ (uhej_service_nodup src dl s h)

theorem uhej_foldl_nodup : ∀ (frames : List uhejAnnounce)
    (dl : List (String × Nat × Nat)), dl.Nodup →
    (frames.foldl uhej_frame_step dl).Nodup := by
  intro frames
  induction frames with
  | nil => intro dl h; exact h
  | cons f fs ih =>
    intro dl h
    exact ih _ (uhej_fold_nodup f.source f.services dl h)

/-- C9 amended: after processing any sequence of announce frames in one scan
window, the discovery record set holds at most one entry per distinct
(source address, service port, service type) triple — the list of recorded
keys is duplicate-free — and processing any announce frame a second time
leaves the record set unchanged; in particular a repeated announce whose
triple is already recorded adds nothing.  (A second frame with the same
triple can still extend the set in exactly one situation: the first frame
with that triple did not advertise the opendps service and was therefore
never recorded.) -/
theorem uhej_discovery_dedup (frames : List uhejAnnounce) (f : uhejAnnounce) :
    (uhej_run frames).Nodup ∧
    uhej_frame_step (uhej_frame_step (uhej_run frames) f) f =
      uhej_frame_step (uhej_run frames) f :=
  ⟨uhej_foldl_nodup frames [] List.nodup_nil,
   uhej_frame_step_idem (uhej_run frames) f⟩

/-- C9 counterexample: two announce frames with the same
(source address, port, type) triple, where only the second advertises the
opendps service.  The first frame records nothing (the name check fails), so
the second frame — same triple — does change the record set, refuting the
claim that processing a second announce frame with the same triple always
leaves the record set unchanged. -/
theorem uhej_second_frame_changes :
    uhej_run [{ source := "10.0.0.1",
                services := [{ port := 5005, type := 0, service_name := "other" }] },
              { source := "10.0.0.1",
                services := [{ port := 5005, type := 0, service_name := "opendps" }] }] ≠
      uhej_run [{ source := "10.0.0.1",
                  services := [{ port := 5005, type := 0, service_name := "other" }] }] := by
  decide
